import Mathlib

/-!
Verification of the Signal-Desktop transport/session-orchestration subsystem
specification against the repository sources.

The repository exposes two source files:
  * `ts/textsecure/index.ts` — the composition root of the textsecure
    subsystem (embedded below as `Storage`, `ComponentRef`, `TextSecureType`
    and `textsecure`);
  * `ts/components/MainHeader.tsx` — the `MainHeader` React component
    (embedded below as `MainHeaderState` and its operations).

The implementations of `MessageSender`, `MessageReceiver`, `ContactBuffer`,
`WebSocketResource`, etc. are only imported by the composition root and are
not part of the sources; the definitions concerning them are modelled from
the specification, as marked in their doc comments.
-/

namespace MainHeader

/-- State of the `MainHeader` React component (`StateType` in
`MainHeader.tsx`): `showingAvatarPopup : boolean`,
`popperRoot : HTMLDivElement | null` (a DOM element modelled by a numeric
id), `outsideClickDestructor?: () => void` (a handler modelled by a numeric
id, `none` = `undefined`), and `virtualElement` (built from the mouse
coordinates by `generateVirtualElement`). -/
structure MainHeaderState where
  showingAvatarPopup : Bool
  popperRoot : Option Nat
  outsideClickDestructor : Option Nat
  virtualElement : Int × Int
  deriving Repr, DecidableEq

/-- The constructor of `MainHeader` sets
`{ showingAvatarPopup: false, popperRoot: null,
   virtualElement: generateVirtualElement(0, 0) }`;
`outsideClickDestructor` is left absent. -/
def initialState : MainHeaderState :=
  { showingAvatarPopup := false
    popperRoot := none
    outsideClickDestructor := none
    virtualElement := (0, 0) }

/-- The `showAvatarPopup` handler: creates a fresh DOM element
(`document.createElement('div')`, here the id `freshRoot`), installs an
outside-click handler, and calls `setState` with `showingAvatarPopup: true`,
the fresh `popperRoot`, the destructor, and a virtual element at the mouse
position `(ev.clientX, ev.clientY)`. -/
def showAvatarPopup (s : MainHeaderState) (freshRoot destructor : Nat)
    (ev : Int × Int) : MainHeaderState :=
  { s with
    showingAvatarPopup := true
    popperRoot := some freshRoot
    outsideClickDestructor := some destructor
    virtualElement := ev }

/-- The `hideAvatarPopup` handler: calls `setState` with
`showingAvatarPopup: false`, `popperRoot: null`,
`outsideClickDestructor: undefined` (then runs the destructor and removes
the DOM element, which does not touch component state). -/
def hideAvatarPopup (s : MainHeaderState) : MainHeaderState :=
  { s with
    showingAvatarPopup := false
    popperRoot := none
    outsideClickDestructor := none }

/-- The `handleGlobalKeyDown` handler: reads `showingAvatarPopup` from state
and `key` from the event; if `showingAvatarPopup && key === 'Escape'` it
calls `hideAvatarPopup`, otherwise it does nothing. -/
def handleGlobalKeyDown (s : MainHeaderState) (key : String) :
    MainHeaderState :=
  if s.showingAvatarPopup && key == "Escape" then hideAvatarPopup s else s

/-- The `render` method mounts the popup portal exactly under the guard
`showingAvatarPopup && popperRoot ? createPortal(...) : null`. -/
def rendersPopupPortal (s : MainHeaderState) : Bool :=
  s.showingAvatarPopup && s.popperRoot.isSome

/-- The state transitions of the component: a click on the avatar
(`showAvatarPopup`), an explicit hide (`hideAvatarPopup`, also reached from
the popup's own callbacks and the outside-click handler), and a global
keydown (`handleGlobalKeyDown`). -/
inductive Action where
  | showPopup (freshRoot destructor : Nat) (ev : Int × Int)
  | hidePopup
  | keyDown (key : String)
  deriving Repr

/-- One step of the component state machine. -/
def step (s : MainHeaderState) : Action → MainHeaderState
  | Action.showPopup freshRoot destructor ev => showAvatarPopup s freshRoot destructor ev
  | Action.hidePopup => hideAvatarPopup s
  | Action.keyDown key => handleGlobalKeyDown s key

/-- Run the component from a state through a list of actions. -/
def run (s : MainHeaderState) (as : List Action) : MainHeaderState :=
  as.foldl step s

/-- The state invariant of claim C8: `showingAvatarPopup` is `true` exactly
when `popperRoot` is non-null. -/
def popupInv (s : MainHeaderState) : Prop :=
  s.showingAvatarPopup = true ↔ s.popperRoot ≠ none

end MainHeader

namespace TextSecure

/-- The `Storage` class instantiated by the composition root
(`new Storage()`); its durable key-value content starts empty. -/
structure Storage where
  items : List (String × String)
  deriving Repr, DecidableEq

/-- A fresh `Storage` instance as produced by `new Storage()`. -/
def Storage.new : Storage := ⟨[]⟩

/-- The uninstantiated component constructors / modules re-exported by the
composition root, each modelled as a distinct reference value. -/
inductive ComponentRef where
  | helpersModule
  | accountManagerCtor
  | contactBufferCtor
  | eventTargetCtor
  | messageReceiverCtor
  | messageSenderCtor
  | syncRequestCtor
  | webAPIModule
  | webSocketResourceCtor
  deriving Repr, DecidableEq

/-- The `TextSecureType` record of `ts/textsecure/index.ts`: the `utils`
module, one `Storage` instance, the eight component constructors/modules,
and the optional `server?: WebAPI.WebAPIType` and
`messaging?: MessageSender` fields (instances modelled by numeric ids,
`none` = absent/undefined). -/
structure TextSecureType where
  utils : ComponentRef
  storage : Storage
  AccountManager : ComponentRef
  ContactBuffer : ComponentRef
  EventTarget : ComponentRef
  MessageReceiver : ComponentRef
  MessageSender : ComponentRef
  SyncRequest : ComponentRef
  WebAPI : ComponentRef
  WebSocketResource : ComponentRef
  server : Option Nat
  messaging : Option Nat
  deriving Repr, DecidableEq

/-- The exported `textsecure` object literal of `ts/textsecure/index.ts`:
`{ utils, storage: new Storage(), AccountManager, ContactBuffer,
EventTarget, MessageReceiver, MessageSender, SyncRequest, WebAPI,
WebSocketResource }` — `server` and `messaging` are omitted. -/
def textsecure : TextSecureType :=
  { utils := ComponentRef.helpersModule
    storage := Storage.new
    AccountManager := ComponentRef.accountManagerCtor
    ContactBuffer := ComponentRef.contactBufferCtor
    EventTarget := ComponentRef.eventTargetCtor
    MessageReceiver := ComponentRef.messageReceiverCtor
    MessageSender := ComponentRef.messageSenderCtor
    SyncRequest := ComponentRef.syncRequestCtor
    WebAPI := ComponentRef.webAPIModule
    WebSocketResource := ComponentRef.webSocketResourceCtor
    server := none
    messaging := none }

end TextSecure

namespace Transport

/-- Modelled from the spec: the error kinds of §7 (the implementations of
the textsecure components are not among the sources). -/
inductive ErrKind where
  | networkError
  | authError
  | decryptError
  | identityMismatch
  | connectionLost
  | syncTimeout
  | linkTimeout
  | registrationError
  deriving Repr, DecidableEq

/-- Modelled from the spec: local recovery (reconnect, session reset,
per-recipient retry) is attempted only for errors classified transient;
identity-key-mismatch errors are never auto-retried, and all non-transient
errors propagate to the caller unmodified. -/
def isAutoRetried : ErrKind → Bool
  | ErrKind.networkError => true
  | ErrKind.connectionLost => true
  | ErrKind.decryptError => true
  | _ => false

abbrev DeviceId := Nat
abbrev IdentityKey := Nat
abbrev Plaintext := List Nat

/-- Modelled from the spec: key agreement is an opaque capability; a
successful exchange leaves both parties of a (local, remote) device pair
with the same per-pair session secret. -/
def sharedSessionKey (a b : DeviceId) : Nat :=
  Nat.pair (min a b) (max a b)

/-- Modelled from the spec: a ciphertext produced by the opaque
encryption capability — determined by the session secret used, the
sender's identity key, and the payload. -/
structure Ciphertext where
  sessionKey : Nat
  senderIdentity : IdentityKey
  payload : Plaintext
  deriving Repr, DecidableEq

/-- Modelled from the spec: encryption under an established session. -/
def encrypt (key : Nat) (senderIdentity : IdentityKey) (pt : Plaintext) :
    Ciphertext :=
  ⟨key, senderIdentity, pt⟩

/-- Modelled from the spec: decryption against the stored session state.
A changed peer identity key is surfaced as `identityMismatch` (never
silently accepted or dropped); a session-secret mismatch is a
`decryptError`; otherwise the original payload is recovered. -/
def decrypt (key : Nat) (trusted : IdentityKey) (ct : Ciphertext) :
    Except ErrKind Plaintext :=
  if ct.senderIdentity ≠ trusted then Except.error ErrKind.identityMismatch
  else if ct.sessionKey ≠ key then Except.error ErrKind.decryptError
  else Except.ok ct.payload

/-- Modelled from the spec: an Envelope — sender/recipient device
identifiers, a timestamp, and ciphertext. -/
structure Envelope where
  senderDevice : DeviceId
  recipientDevice : DeviceId
  timestamp : Nat
  ciphertext : Ciphertext
  deriving Repr, DecidableEq

/-- Modelled from the spec: the Credential Store — the local device's
identity material and the trusted identity keys recorded per peer
device. -/
structure CredentialStore where
  localDevice : DeviceId
  localIdentity : IdentityKey
  trustedIdentities : List (DeviceId × IdentityKey)
  deriving Repr, DecidableEq

/-- Trusted identity key recorded for a peer device, if any. -/
def lookupTrusted (store : CredentialStore) (d : DeviceId) :
    Option IdentityKey :=
  store.trustedIdentities.lookup d

/-- Modelled from the spec: `MessageSender.send` — for each recipient
device, establish/refresh the per-recipient session and encrypt the
plaintext per-recipient, producing one envelope per recipient. -/
def sendMessage (sender : CredentialStore) (ts : Nat) (pt : Plaintext)
    (recipients : List DeviceId) : List Envelope :=
  recipients.map fun r =>
    { senderDevice := sender.localDevice
      recipientDevice := r
      timestamp := ts
      ciphertext := encrypt (sharedSessionKey sender.localDevice r)
        sender.localIdentity pt }

/-- Modelled from the spec: `MessageReceiver` decrypting one envelope
against the recipient's Credential Store: look up the session for the
sender (lazily established on first contact) and decrypt, checking the
sender's identity key against the trusted record. -/
def receiveEnvelope (store : CredentialStore) (env : Envelope) :
    Except ErrKind Plaintext :=
  let key := sharedSessionKey store.localDevice env.senderDevice
  match lookupTrusted store env.senderDevice with
  | none => decrypt key env.ciphertext.senderIdentity env.ciphertext
  | some k => decrypt key k env.ciphertext

/-- Modelled from the spec: a bounded retry loop — `op attempt` runs one
attempt; errors classified transient are retried while the budget lasts,
all other errors are surfaced to the caller immediately. -/
def attemptWithRetry (op : Nat → Except ErrKind Plaintext) :
    Nat → Nat → Except ErrKind Plaintext
  | attempt, budget =>
    match op attempt, budget with
    | Except.ok v, _ => Except.ok v
    | Except.error e, 0 => Except.error e
    | Except.error e, b + 1 =>
      if isAutoRetried e then attemptWithRetry op (attempt + 1) b
      else Except.error e

end Transport

namespace Transport

/-- Modelled from the spec: the Inbound Pipeline's state — the recipient's
Credential Store, the dedup window keyed by (sender device, timestamp),
the `messageReceived` events emitted on the Event Bus, the error reports,
and the acknowledgments sent to the relay. -/
structure ReceiverState where
  store : CredentialStore
  dedup : List (DeviceId × Nat)
  events : List (DeviceId × Nat × Plaintext)
  errorReports : List ErrKind
  acks : Nat
  deriving Repr, DecidableEq

/-- Modelled from the spec: Receiver processing of one unsolicited frame —
check the dedup window (keyed by sender-device + timestamp); if duplicate,
acknowledge to relay and discard without emitting an event; otherwise
decrypt, emit `messageReceived` on success (recording the dedup key) or
report the error, and acknowledge. -/
def processEnvelope (st : ReceiverState) (env : Envelope) : ReceiverState :=
  if (env.senderDevice, env.timestamp) ∈ st.dedup then
    { st with acks := st.acks + 1 }
  else
    match receiveEnvelope st.store env with
    | Except.ok pt =>
      { st with
        dedup := (env.senderDevice, env.timestamp) :: st.dedup
        events := st.events ++ [(env.senderDevice, env.timestamp, pt)]
        acks := st.acks + 1 }
    | Except.error e =>
      { st with
        errorReports := st.errorReports ++ [e]
        acks := st.acks + 1 }

/-- Deliver a list of envelopes (relay order) to the Receiver. -/
def processAll (st : ReceiverState) (envs : List Envelope) : ReceiverState :=
  envs.foldl processEnvelope st

/-- Modelled from the spec: per-recipient terminal delivery status of an
Outgoing Job. -/
inductive Outcome where
  | sent
  | failed (reason : ErrKind)
  deriving Repr, DecidableEq

/-- Whether an outcome is the `sent` terminal state. -/
def Outcome.isSent : Outcome → Bool
  | Outcome.sent => true
  | Outcome.failed _ => false

/-- Modelled from the spec: `MessageSender.send` aggregate accounting —
each recipient device is attempted independently (`net r = true` when the
network delivers to `r`, `false` on a transient network error after the
retry budget); the call always resolves with a per-recipient outcome list
instead of failing the whole operation for a partial failure. -/
def sendAll (net : DeviceId → Bool) (recipients : List DeviceId) :
    List (DeviceId × Outcome) :=
  recipients.map fun r =>
    (r, if net r then Outcome.sent else Outcome.failed ErrKind.networkError)

/-- Final result surfaced to the caller of a correlated request. -/
inductive ReqResult where
  | ok
  | err (e : ErrKind)
  deriving Repr, DecidableEq

/-- Modelled from the spec: the `WebSocketResource` connection state — the
duplex connection, the account registration (credentials stored at
registration), the correlation ids of outstanding requests, and the final
result surfaced to each request's caller. -/
structure WSState where
  connected : Bool
  registered : Bool
  outstanding : List Nat
  resolved : List (Nat × ReqResult)
  deriving Repr, DecidableEq

/-- Modelled from the spec: disconnect — every request outstanding at
disconnect time fails with `ConnectionLost`, surfaced to its caller;
registration credentials are untouched. -/
def disconnect (s : WSState) : WSState :=
  { s with
    connected := false
    outstanding := []
    resolved := s.resolved ++
      s.outstanding.map fun i => (i, ReqResult.err ErrKind.connectionLost) }

/-- Modelled from the spec: reconnection re-establishes the duplex channel
authenticating with stored credentials; it does not re-register. -/
def reconnect (s : WSState) : WSState :=
  { s with connected := true }

/-- Send/receive proceed normally exactly when the connection is up and
the device is registered. -/
def canSendReceive (s : WSState) : Bool :=
  s.connected && s.registered

end Transport

namespace Transport

/-- Modelled from the spec: the incremental record extractor behind the
`ContactBuffer` (Contact Stream Parser). The stream is a sequence of
length-delimited records: one length byte followed by that many payload
bytes. `drain buf` extracts every complete record from the front of `buf`,
in stream order, returning the records and the unconsumed tail (a partial
record buffered until the next chunk completes it). -/
def drain : List Nat → List (List Nat) × List Nat
  | [] => ([], [])
  | len :: rest =>
    if _h : len ≤ rest.length then
      let r := drain (rest.drop len)
      ((rest.take len) :: r.1, r.2)
    else ([], len :: rest)
termination_by l => l.length
decreasing_by
  simp only [List.length_cons, List.length_drop]
  omega

/-- Modelled from the spec: the `ContactBuffer` — buffers the raw bytes of
a partial record across chunk boundaries and accumulates the complete
records decoded so far, in stream order. -/
structure ContactBuffer where
  buffer : List Nat
  records : List (List Nat)
  deriving Repr, DecidableEq

/-- A `ContactBuffer` before any chunk has been delivered. -/
def ContactBuffer.init : ContactBuffer := ⟨[], []⟩

/-- Modelled from the spec: feeding one delivery chunk to the
`ContactBuffer` — append the chunk to the buffered partial bytes and
extract every record that is now complete. -/
def ContactBuffer.feed (cb : ContactBuffer) (chunk : List Nat) :
    ContactBuffer :=
  let r := drain (cb.buffer ++ chunk)
  { buffer := r.2, records := cb.records ++ r.1 }

/-- Feed a sequence of delivery chunks, one frame at a time. -/
def feedChunks (cb : ContactBuffer) (chunks : List (List Nat)) :
    ContactBuffer :=
  chunks.foldl ContactBuffer.feed cb

/-- Modelled from the spec: a decoded Contact Record — an identifier and a
name reconstructed from one record payload. -/
structure ContactRecord where
  identifier : Nat
  name : List Nat
  deriving Repr, DecidableEq

/-- Modelled from the spec: decoding one raw record payload into a Contact
Record; an empty payload (no identifier) is a parse error. -/
def decodeContact : List Nat → Except Unit ContactRecord
  | [] => Except.error ()
  | ident :: name => Except.ok ⟨ident, name⟩

/-- Modelled from the spec: parsing a complete sync payload — extract all
records, fail if the stream ends inside a record, and decode each record
payload; any mid-stream decode failure fails the whole parse. -/
def parseContacts (stream : List Nat) : Except Unit (List ContactRecord) :=
  let r := drain stream
  if r.2 = [] then r.1.mapM decodeContact else Except.error ()

/-- Modelled from the spec: the Sync Coordinator's cached contact set. -/
structure SyncState where
  contacts : List ContactRecord
  deriving Repr, DecidableEq

/-- Modelled from the spec: applying a sync attempt — a fully parsed
payload replaces the cached contact set atomically; a parse error fails
the whole attempt and publishes nothing, leaving the prior set
authoritative. -/
def applySync (st : SyncState) (stream : List Nat) :
    SyncState × Except Unit Unit :=
  match parseContacts stream with
  | Except.ok cs => (⟨cs⟩, Except.ok ())
  | Except.error e => (st, Except.error e)

end Transport

namespace MainHeader

/-- Each component transition preserves the popup invariant. -/
theorem popupInv_step (s : MainHeaderState) (a : Action) (h : popupInv s) :
    popupInv (step s a) := by
  cases a with
  | showPopup root d ev =>
    simp [step, showAvatarPopup, popupInv]
  | hidePopup =>
    simp [step, hideAvatarPopup, popupInv]
  | keyDown key =>
    simp only [step, handleGlobalKeyDown]
    split
    · simp [hideAvatarPopup, popupInv]
    · exact h

/-- The popup invariant holds in every state reachable through actions. -/
theorem popupInv_run (as : List Action) (s : MainHeaderState)
    (h : popupInv s) : popupInv (run s as) := by
  induction as generalizing s with
  | nil => exact h
  | cons a as ih => exact ih (step s a) (popupInv_step s a h)

end MainHeader

/-- C8: the `MainHeader` component maintains the invariant that
`showingAvatarPopup` is `true` exactly when `popperRoot` is non-null — the
initial state has both false/null, `showAvatarPopup` sets both together
(true and a fresh element), `hideAvatarPopup` clears both together, the
invariant holds in every reachable state, and the popup portal is rendered
only when both hold. -/
theorem MainHeader.popup_state_invariant :
    (initialState.showingAvatarPopup = false ∧ initialState.popperRoot = none) ∧
    (∀ (s : MainHeaderState) (root d : Nat) (ev : Int × Int),
      (showAvatarPopup s root d ev).showingAvatarPopup = true ∧
      (showAvatarPopup s root d ev).popperRoot = some root) ∧
    (∀ s : MainHeaderState,
      (hideAvatarPopup s).showingAvatarPopup = false ∧
      (hideAvatarPopup s).popperRoot = none) ∧
    (∀ as : List Action, popupInv (run initialState as)) ∧
    (∀ s : MainHeaderState, rendersPopupPortal s = true →
      s.showingAvatarPopup = true ∧ s.popperRoot ≠ none) := by
  refine ⟨⟨rfl, rfl⟩, ?_, ?_, ?_, ?_⟩
  · intro s root d ev
    exact ⟨rfl, rfl⟩
  · intro s
    exact ⟨rfl, rfl⟩
  · intro as
    refine popupInv_run as initialState ?_
    simp [initialState, popupInv]
  · intro s h
    simp only [rendersPopupPortal, Bool.and_eq_true] at h
    refine ⟨h.1, ?_⟩
    cases hr : s.popperRoot with
    | none => rw [hr] at h; simp [Option.isSome] at h
    | some v => simp

/-- Witness for C8 at a concrete action sequence and a concrete state. -/
theorem MainHeader.popup_state_invariant_witness :
    popupInv (run initialState
      [Action.showPopup 7 3 (1, 2), Action.keyDown "Escape"]) ∧
    (MainHeaderState.mk true (some 7) (some 3) (1, 2)).showingAvatarPopup = true := by
  refine ⟨(MainHeader.popup_state_invariant.2.2.2.1)
    [Action.showPopup 7 3 (1, 2), Action.keyDown "Escape"], ?_⟩
  have h := (MainHeader.popup_state_invariant.2.2.2.2)
    (MainHeaderState.mk true (some 7) (some 3) (1, 2)) (by decide)
  exact h.1

/-- C9: `handleGlobalKeyDown` hides the avatar popup exactly when the popup
is showing and the pressed key is `'Escape'`; for any other key, or when
the popup is not showing, the state is left unchanged. -/
theorem MainHeader.handleGlobalKeyDown_spec (s : MainHeader.MainHeaderState)
    (key : String) :
    (s.showingAvatarPopup = true ∧ key = "Escape" →
      MainHeader.handleGlobalKeyDown s key = MainHeader.hideAvatarPopup s ∧
      (MainHeader.handleGlobalKeyDown s key).showingAvatarPopup = false) ∧
    (¬(s.showingAvatarPopup = true ∧ key = "Escape") →
      MainHeader.handleGlobalKeyDown s key = s) := by
  constructor
  · rintro ⟨hshow, hkey⟩
    have hcond : (s.showingAvatarPopup && key == "Escape") = true := by
      rw [hshow, hkey]; rfl
    constructor
    · simp [MainHeader.handleGlobalKeyDown, hcond]
    · simp [MainHeader.handleGlobalKeyDown, hcond, MainHeader.hideAvatarPopup]
  · intro hneg
    have hcond : (s.showingAvatarPopup && key == "Escape") = false := by
      cases hshow : s.showingAvatarPopup with
      | false => simp
      | true =>
        cases hkey : key == "Escape" with
        | false => simp
        | true =>
          exact absurd ⟨hshow, by simpa using hkey⟩ hneg
    simp [MainHeader.handleGlobalKeyDown, hcond]

/-- Witness for C9: with the popup showing, `'Escape'` hides it and `'a'`
leaves the state unchanged. -/
theorem MainHeader.handleGlobalKeyDown_spec_witness :
    (MainHeader.handleGlobalKeyDown
        (MainHeader.MainHeaderState.mk true (some 7) (some 3) (1, 2)) "Escape"
      = MainHeader.hideAvatarPopup
        (MainHeader.MainHeaderState.mk true (some 7) (some 3) (1, 2))) ∧
    (MainHeader.handleGlobalKeyDown
        (MainHeader.MainHeaderState.mk true (some 7) (some 3) (1, 2)) "a"
      = MainHeader.MainHeaderState.mk true (some 7) (some 3) (1, 2)) := by
  constructor
  · exact ((MainHeader.handleGlobalKeyDown_spec
      (MainHeader.MainHeaderState.mk true (some 7) (some 3) (1, 2)) "Escape").1
      ⟨rfl, rfl⟩).1
  · exact (MainHeader.handleGlobalKeyDown_spec
      (MainHeader.MainHeaderState.mk true (some 7) (some 3) (1, 2)) "a").2
      (by simp)

/-- C10: the exported `textsecure` composition root has its optional
`server` and `messaging` fields absent, stores one fresh `Storage`
instance, and every other member is the uninstantiated component
constructor or module reference itself. -/
theorem TextSecure.textsecure_composition :
    TextSecure.textsecure.server = none ∧
    TextSecure.textsecure.messaging = none ∧
    TextSecure.textsecure.storage = TextSecure.Storage.new ∧
    TextSecure.textsecure.storage.items = [] ∧
    TextSecure.textsecure.utils = TextSecure.ComponentRef.helpersModule ∧
    TextSecure.textsecure.AccountManager
      = TextSecure.ComponentRef.accountManagerCtor ∧
    TextSecure.textsecure.ContactBuffer
      = TextSecure.ComponentRef.contactBufferCtor ∧
    TextSecure.textsecure.EventTarget
      = TextSecure.ComponentRef.eventTargetCtor ∧
    TextSecure.textsecure.MessageReceiver
      = TextSecure.ComponentRef.messageReceiverCtor ∧
    TextSecure.textsecure.MessageSender
      = TextSecure.ComponentRef.messageSenderCtor ∧
    TextSecure.textsecure.SyncRequest
      = TextSecure.ComponentRef.syncRequestCtor ∧
    TextSecure.textsecure.WebAPI = TextSecure.ComponentRef.webAPIModule ∧
    TextSecure.textsecure.WebSocketResource
      = TextSecure.ComponentRef.webSocketResourceCtor := by
  decide

namespace Transport

/-- The per-pair session secret is symmetric in the two devices. -/
theorem sharedSessionKey_comm (a b : DeviceId) :
    sharedSessionKey a b = sharedSessionKey b a := by
  simp [sharedSessionKey, min_comm, max_comm]

end Transport

/-- C1: for every plaintext payload and recipient set, `send` through the
Outbound Pipeline followed by simulated relay delivery of the envelope to
its recipient and `receive` on that recipient's store yields the original
plaintext. -/
theorem Transport.send_receive_roundtrip (sender : Transport.CredentialStore)
    (ts : Nat) (pt : Transport.Plaintext)
    (recipients : List Transport.DeviceId) (env : Transport.Envelope)
    (henv : env ∈ Transport.sendMessage sender ts pt recipients)
    (store : Transport.CredentialStore)
    (hloc : store.localDevice = env.recipientDevice)
    (htrust : Transport.lookupTrusted store env.senderDevice = none ∨
      Transport.lookupTrusted store env.senderDevice
        = some sender.localIdentity) :
    Transport.receiveEnvelope store env = Except.ok pt := by
  simp only [Transport.sendMessage, List.mem_map] at henv
  obtain ⟨r, _hr, rfl⟩ := henv
  simp only at hloc
  rcases htrust with htrust | htrust <;>
    simp [Transport.receiveEnvelope, Transport.encrypt, Transport.decrypt,
      htrust, hloc, Transport.sharedSessionKey_comm r sender.localDevice]

/-- Witness for C1: a concrete two-recipient send round-trips on the first
recipient's store. -/
theorem Transport.send_receive_roundtrip_witness :
    Transport.receiveEnvelope
      (Transport.CredentialStore.mk 5 50 [(1, 10)])
      (Transport.Envelope.mk 1 5 777
        (Transport.encrypt (Transport.sharedSessionKey 1 5) 10 [3, 1, 4])) =
      Except.ok [3, 1, 4] := by
  exact Transport.send_receive_roundtrip
    (Transport.CredentialStore.mk 1 10 []) 777 [3, 1, 4] [5, 9]
    (Transport.Envelope.mk 1 5 777
      (Transport.encrypt (Transport.sharedSessionKey 1 5) 10 [3, 1, 4]))
    (by simp [Transport.sendMessage])
    (Transport.CredentialStore.mk 5 50 [(1, 10)])
    (by decide)
    (Or.inr (by decide))

/-- C4: a changed peer identity key makes the next decrypt surface
`identityMismatch` — the Receiver reports it and emits no message event
(neither silently accepted nor silently dropped) — and `identityMismatch`
is never auto-retried: the retry loop returns it to the caller
immediately, whatever the remaining budget. -/
theorem Transport.identityMismatch_surfaced_never_retried
    (store : Transport.CredentialStore) (env : Transport.Envelope)
    (kOld kNew : Transport.IdentityKey)
    (htrust : Transport.lookupTrusted store env.senderDevice = some kOld)
    (hid : env.ciphertext.senderIdentity = kNew) (hne : kNew ≠ kOld) :
    Transport.receiveEnvelope store env
      = Except.error Transport.ErrKind.identityMismatch ∧
    Transport.isAutoRetried Transport.ErrKind.identityMismatch = false ∧
    (∀ st : Transport.ReceiverState, st.store = store →
      (env.senderDevice, env.timestamp) ∉ st.dedup →
      (Transport.processEnvelope st env).errorReports
          = st.errorReports ++ [Transport.ErrKind.identityMismatch] ∧
      (Transport.processEnvelope st env).events = st.events) ∧
    (∀ (attempt budget : Nat)
      (op : Nat → Except Transport.ErrKind Transport.Plaintext),
      op attempt = Except.error Transport.ErrKind.identityMismatch →
      Transport.attemptWithRetry op attempt budget
        = Except.error Transport.ErrKind.identityMismatch) := by
  have hrecv : Transport.receiveEnvelope store env
      = Except.error Transport.ErrKind.identityMismatch := by
    simp [Transport.receiveEnvelope, htrust, Transport.decrypt, hid, hne]
  refine ⟨hrecv, rfl, ?_, ?_⟩
  · intro st hst hnew
    subst hst
    simp [Transport.processEnvelope, hnew, hrecv]
  · intro attempt budget op hop
    cases budget with
    | zero => simp [Transport.attemptWithRetry, hop]
    | succ b => simp [Transport.attemptWithRetry, hop, Transport.isAutoRetried]

/-- Witness for C4: a peer whose identity key changed from 20 to 21. -/
theorem Transport.identityMismatch_surfaced_never_retried_witness :
    Transport.receiveEnvelope
      (Transport.CredentialStore.mk 1 10 [(2, 20)])
      (Transport.Envelope.mk 2 1 42 (Transport.Ciphertext.mk 99 21 [7]))
      = Except.error Transport.ErrKind.identityMismatch := by
  exact (Transport.identityMismatch_surfaced_never_retried
    (Transport.CredentialStore.mk 1 10 [(2, 20)])
    (Transport.Envelope.mk 2 1 42 (Transport.Ciphertext.mk 99 21 [7]))
    20 21 (by decide) (by decide) (by decide)).1

namespace Transport

/-- A duplicate envelope (dedup key already recorded) is acknowledged and
discarded without emitting an event. -/
theorem processEnvelope_dup (st : ReceiverState) (env : Envelope)
    (hdup : (env.senderDevice, env.timestamp) ∈ st.dedup) :
    processEnvelope st env = { st with acks := st.acks + 1 } := by
  simp [processEnvelope, hdup]

/-- Redelivering an already-recorded envelope any number of times only
accumulates acknowledgments. -/
theorem processAll_dup (n : Nat) (st : ReceiverState) (env : Envelope)
    (hdup : (env.senderDevice, env.timestamp) ∈ st.dedup) :
    processAll st (List.replicate n env) = { st with acks := st.acks + n } := by
  induction n generalizing st with
  | zero => simp [processAll]
  | succ m ih =>
    have hstep : processAll st (List.replicate (m + 1) env)
        = processAll { st with acks := st.acks + 1 } (List.replicate m env) := by
      simp [processAll, List.replicate_succ, processEnvelope_dup st env hdup]
    rw [hstep, ih { st with acks := st.acks + 1 } hdup]
    simp
    omega

end Transport

/-- C2: an envelope delivered `n ≥ 1` times within the dedup retention
window (same sender device and timestamp) produces exactly one
`messageReceived` event — every duplicate is acknowledged to the relay and
discarded without emitting an event. -/
theorem Transport.receiver_at_most_once (st : Transport.ReceiverState)
    (env : Transport.Envelope) (pt : Transport.Plaintext) (n : Nat)
    (hn : 1 ≤ n)
    (hnew : (env.senderDevice, env.timestamp) ∉ st.dedup)
    (hok : Transport.receiveEnvelope st.store env = Except.ok pt) :
    (Transport.processAll st (List.replicate n env)).events
      = st.events ++ [(env.senderDevice, env.timestamp, pt)] ∧
    (Transport.processAll st (List.replicate n env)).acks = st.acks + n := by
  obtain ⟨m, rfl⟩ : ∃ m, n = m + 1 := ⟨n - 1, by omega⟩
  have hfirst : Transport.processEnvelope st env =
      { st with
        dedup := (env.senderDevice, env.timestamp) :: st.dedup
        events := st.events ++ [(env.senderDevice, env.timestamp, pt)]
        acks := st.acks + 1 } := by
    simp [Transport.processEnvelope, hnew, hok]
  have hrest := Transport.processAll_dup m
    { st with
      dedup := (env.senderDevice, env.timestamp) :: st.dedup
      events := st.events ++ [(env.senderDevice, env.timestamp, pt)]
      acks := st.acks + 1 } env (by simp)
  have hsplit : Transport.processAll st (List.replicate (m + 1) env)
      = Transport.processAll (Transport.processEnvelope st env)
          (List.replicate m env) := by
    simp [Transport.processAll, List.replicate_succ]
  rw [hsplit, hfirst, hrest]
  constructor
  · rfl
  · simp
    omega

/-- Witness for C2: one envelope delivered twice yields exactly one event
and two acknowledgments. -/
theorem Transport.receiver_at_most_once_witness :
    (Transport.processAll
        (Transport.ReceiverState.mk
          (Transport.CredentialStore.mk 1 10 [(2, 20)]) [] [] [] 0)
        (List.replicate 2
          (Transport.Envelope.mk 2 1 100
            (Transport.encrypt (Transport.sharedSessionKey 1 2) 20 [42])))).events
      = [(2, 100, [42])] ∧
    (Transport.processAll
        (Transport.ReceiverState.mk
          (Transport.CredentialStore.mk 1 10 [(2, 20)]) [] [] [] 0)
        (List.replicate 2
          (Transport.Envelope.mk 2 1 100
            (Transport.encrypt (Transport.sharedSessionKey 1 2) 20 [42])))).acks
      = 2 := by
  exact Transport.receiver_at_most_once
    (Transport.ReceiverState.mk
      (Transport.CredentialStore.mk 1 10 [(2, 20)]) [] [] [] 0)
    (Transport.Envelope.mk 2 1 100
      (Transport.encrypt (Transport.sharedSessionKey 1 2) 20 [42]))
    [42] 2 (by decide) (by decide) (by rfl)

/-- C3: a send to `N` recipients in which exactly one recipient `k` fails
with a transient network error and the rest succeed resolves with an
aggregate result — one outcome per recipient — containing exactly `N − 1`
`sent` outcomes and `1` `failed` outcome, and every other recipient is
delivered (`sent`) regardless of the failure. -/
theorem Transport.sender_aggregate_partial_failure
    (net : Transport.DeviceId → Bool)
    (recipients : List Transport.DeviceId) (k : Transport.DeviceId)
    (hk : k ∈ recipients) (hfail : net k = false)
    (hrest : ∀ r ∈ recipients, r ≠ k → net r = true)
    (hnodup : recipients.Nodup) :
    (Transport.sendAll net recipients).length = recipients.length ∧
    ((Transport.sendAll net recipients).countP fun p => p.2.isSent)
      = recipients.length - 1 ∧
    ((Transport.sendAll net recipients).countP fun p => !p.2.isSent) = 1 ∧
    (∀ r ∈ recipients, r ≠ k →
      (r, Transport.Outcome.sent) ∈ Transport.sendAll net recipients) ∧
    (k, Transport.Outcome.failed Transport.ErrKind.networkError)
      ∈ Transport.sendAll net recipients := by
  have hfailed :
      ((Transport.sendAll net recipients).countP fun p => !p.2.isSent) = 1 := by
    rw [Transport.sendAll, List.countP_map]
    have hcong : recipients.countP
        ((fun p : Transport.DeviceId × Transport.Outcome => !p.2.isSent) ∘
          fun r => (r, if net r then Transport.Outcome.sent
            else Transport.Outcome.failed Transport.ErrKind.networkError))
        = recipients.countP fun r => r == k := by
      refine List.countP_congr ?_
      intro r hr
      by_cases hrk : r = k
      · subst hrk
        simp [Function.comp, hfail, Transport.Outcome.isSent]
      · have := hrest r hr hrk
        simp [Function.comp, this, Transport.Outcome.isSent, hrk]
    rw [hcong]
    have := List.count_eq_one_of_mem hnodup hk
    simpa [List.count] using this
  refine ⟨by simp [Transport.sendAll], ?_, hfailed, ?_, ?_⟩
  · have hlen : (Transport.sendAll net recipients).length
        = ((Transport.sendAll net recipients).countP fun p => p.2.isSent)
          + ((Transport.sendAll net recipients).countP fun p => !p.2.isSent) := by
      simpa using List.length_eq_countP_add_countP
        (fun p : Transport.DeviceId × Transport.Outcome => p.2.isSent)
        (Transport.sendAll net recipients)
    have hlen2 : (Transport.sendAll net recipients).length
        = recipients.length := by simp [Transport.sendAll]
    rw [hfailed] at hlen
    omega
  · intro r hr hrk
    have hnet := hrest r hr hrk
    refine List.mem_map.mpr ⟨r, hr, ?_⟩
    simp [hnet]
  · refine List.mem_map.mpr ⟨k, hk, ?_⟩
    simp [hfail]

/-- Witness for C3: three recipients where device 2 fails and 1, 3
succeed. -/
theorem Transport.sender_aggregate_partial_failure_witness :
    ((Transport.sendAll (fun r => r != 2) [1, 2, 3]).countP
      fun p => p.2.isSent) = 2 ∧
    ((Transport.sendAll (fun r => r != 2) [1, 2, 3]).countP
      fun p => !p.2.isSent) = 1 ∧
    (2, Transport.Outcome.failed Transport.ErrKind.networkError)
      ∈ Transport.sendAll (fun r => r != 2) [1, 2, 3] := by
  have h := Transport.sender_aggregate_partial_failure
    (fun r => r != 2) [1, 2, 3] 2 (by decide) (by decide)
    (by decide) (by decide)
  exact ⟨h.2.1, h.2.2.1, h.2.2.2.2⟩

/-- C7: when the connection resource disconnects, every request
outstanding at disconnect time is resolved with `ConnectionLost` for its
caller and the queue is emptied; a subsequent reconnection leaves the
registration untouched and resumes normal send/receive without requiring
re-registration. -/
theorem Transport.disconnect_connectionLost_reconnect_resumes
    (s : Transport.WSState) (hreg : s.registered = true) :
    (∀ i ∈ s.outstanding,
      (i, Transport.ReqResult.err Transport.ErrKind.connectionLost)
        ∈ (Transport.disconnect s).resolved) ∧
    (Transport.disconnect s).outstanding = [] ∧
    (Transport.reconnect (Transport.disconnect s)).registered = true ∧
    Transport.canSendReceive (Transport.reconnect (Transport.disconnect s))
      = true := by
  refine ⟨?_, rfl, ?_, ?_⟩
  · intro i hi
    simp only [Transport.disconnect, List.mem_append, List.mem_map]
    exact Or.inr ⟨i, hi, rfl⟩
  · simpa [Transport.reconnect, Transport.disconnect] using hreg
  · simp [Transport.canSendReceive, Transport.reconnect,
      Transport.disconnect, hreg]

/-- Witness for C7: a registered connection with two outstanding requests. -/
theorem Transport.disconnect_connectionLost_reconnect_resumes_witness :
    ((4, Transport.ReqResult.err Transport.ErrKind.connectionLost)
      ∈ (Transport.disconnect (Transport.WSState.mk true true [4, 7] [])).resolved) ∧
    Transport.canSendReceive
      (Transport.reconnect
        (Transport.disconnect (Transport.WSState.mk true true [4, 7] [])))
      = true := by
  have h := Transport.disconnect_connectionLost_reconnect_resumes
    (Transport.WSState.mk true true [4, 7] []) (by decide)
  exact ⟨h.1 4 (by decide), h.2.2.2⟩

namespace Transport

/-- Extraction from an empty buffer yields nothing. -/
theorem drain_nil : drain [] = ([], []) := by
  simp [drain]

/-- Extraction when the first record is complete in the buffer. -/
theorem drain_cons_of_le {len : Nat} {rest : List Nat}
    (h : len ≤ rest.length) :
    drain (len :: rest) =
      ((rest.take len) :: (drain (rest.drop len)).1,
        (drain (rest.drop len)).2) := by
  rw [drain]
  simp [h]

/-- Extraction when the first record is still incomplete. -/
theorem drain_cons_of_gt {len : Nat} {rest : List Nat}
    (h : ¬ len ≤ rest.length) :
    drain (len :: rest) = ([], len :: rest) := by
  rw [drain]
  simp [h]

/-- Record extraction composes across an arbitrary split point of the byte
stream: extracting from `xs ++ ys` is extracting from `xs` and then from
the unconsumed tail of `xs` prepended to `ys`. -/
theorem drain_append (xs ys : List Nat) :
    drain (xs ++ ys) = ((drain xs).1 ++ (drain ((drain xs).2 ++ ys)).1,
      (drain ((drain xs).2 ++ ys)).2) := by
  induction xs using drain.induct with
  | case1 => simp [drain_nil]
  | case2 len rest h ih =>
    have h' : len ≤ (rest ++ ys).length := by
      simp only [List.length_append]
      omega
    rw [List.cons_append, drain_cons_of_le h', drain_cons_of_le h]
    rw [List.take_append_of_le_length h, List.drop_append_of_le_length h]
    rw [ih]
    simp
  | case3 len rest h =>
    rw [drain_cons_of_gt h]
    simp

/-- Feeding two chunks in sequence is feeding their concatenation. -/
theorem feed_append (cb : ContactBuffer) (a b : List Nat) :
    (cb.feed a).feed b = cb.feed (a ++ b) := by
  simp only [ContactBuffer.feed]
  rw [← List.append_assoc, drain_append (cb.buffer ++ a) b]
  simp

/-- Feeding a chunk and then a chunk sequence is feeding one combined
stream. -/
theorem feedChunks_feed (cs : List (List Nat)) :
    ∀ (cb : ContactBuffer) (a : List Nat),
    feedChunks (cb.feed a) cs = cb.feed (a ++ cs.flatten) := by
  induction cs with
  | nil => intro cb a; simp [feedChunks]
  | cons c cs ih =>
    intro cb a
    simp only [feedChunks, List.foldl_cons]
    rw [feed_append]
    have := ih cb (a ++ c)
    simp only [feedChunks] at this
    rw [this, List.flatten_cons, List.append_assoc]

end Transport

/-- C6: for every byte stream of contact records and every partition of it
into delivery chunks, feeding the Contact Stream Parser the chunks one at
a time yields exactly the same parser state — in particular the same
record sequence, in stream order — as feeding the whole stream in a
single chunk. -/
theorem Transport.contact_parse_chunk_invariant (stream : List Nat)
    (chunks : List (List Nat)) (hpart : chunks.flatten = stream) :
    Transport.feedChunks Transport.ContactBuffer.init chunks
      = Transport.ContactBuffer.init.feed stream ∧
    (Transport.feedChunks Transport.ContactBuffer.init chunks).records
      = (Transport.ContactBuffer.init.feed stream).records := by
  have hmain : Transport.feedChunks Transport.ContactBuffer.init chunks
      = Transport.ContactBuffer.init.feed stream := by
    cases chunks with
    | nil =>
      subst hpart
      simp [Transport.feedChunks, Transport.ContactBuffer.feed,
        Transport.ContactBuffer.init, Transport.drain_nil]
    | cons c cs =>
      subst hpart
      simp only [Transport.feedChunks, List.foldl_cons]
      have := Transport.feedChunks_feed cs Transport.ContactBuffer.init c
      simp only [Transport.feedChunks] at this
      rw [this, List.flatten_cons]
  exact ⟨hmain, by rw [hmain]⟩

/-- Witness for C6: a sync payload of three records split across three
delivery frames equals the single-frame parse. -/
theorem Transport.contact_parse_chunk_invariant_witness :
    Transport.feedChunks Transport.ContactBuffer.init
        [[2, 10], [11, 1, 12, 3], [13, 14, 15]]
      = Transport.ContactBuffer.init.feed
        [2, 10, 11, 1, 12, 3, 13, 14, 15] := by
  exact (Transport.contact_parse_chunk_invariant
    [2, 10, 11, 1, 12, 3, 13, 14, 15]
    [[2, 10], [11, 1, 12, 3], [13, 14, 15]] (by decide)).1

/-- C5: a sync attempt whose contact stream fails to parse mid-stream
fails as a whole: nothing is published and the previously cached contact
set is left unchanged — replacement of the contact set is atomic. -/
theorem Transport.sync_replacement_atomic (st : Transport.SyncState)
    (stream : List Nat) (e : Unit)
    (herr : Transport.parseContacts stream = Except.error e) :
    Transport.applySync st stream = (st, Except.error e) := by
  simp [Transport.applySync, herr]

/-- Witness for C5: a five-record payload whose third record is malformed
errors after parsing two records and leaves the cached set unchanged. -/
theorem Transport.sync_replacement_atomic_witness :
    Transport.applySync
        (Transport.SyncState.mk [Transport.ContactRecord.mk 9 [1]])
        [1, 10, 1, 11, 0, 1, 13, 1, 14]
      = (Transport.SyncState.mk [Transport.ContactRecord.mk 9 [1]],
          Except.error ()) := by
  exact Transport.sync_replacement_atomic
    (Transport.SyncState.mk [Transport.ContactRecord.mk 9 [1]])
    [1, 10, 1, 11, 0, 1, 13, 1, 14] ()
    (by simp [Transport.parseContacts, Transport.drain,
      Transport.decodeContact, List.mapM, List.mapM.loop, Bind.bind,
      Except.bind])
